import Mathlib

/-!
Verification development for the BashBard command-mediation engine.

The Python sources under `agentic_shell_guard/` are shallowly embedded as
executable Lean definitions:

* `safety.py`   — regular-expression danger classifier (`check_danger`);
  Python `re` is embedded by a small backtracking matcher over an explicit
  regex AST, and `shlex.split` by an explicit POSIX-mode tokenizer that
  mirrors its error behaviour (`ValueError` on unbalanced quoting).
* `nodes.py`    — the state-machine node functions; the external LLM call is
  a parameter `llm : String → Except String String` (an `.error` outcome
  covers transport faults and the 30 s timeout, which the code converts into
  `TimeoutError`); `json.loads` is embedded by a structural JSON parser.
* `graph.py`    — the LangGraph wiring, embedded as a small-step transition
  function on (node, state) with the conditional-edge selectors.
* `daemon.py`   — the `preexec`/`postexec` handlers.
* `terminal.py` — the output-context tracker of `AITerminal`
  (`append_output_context`, `_try_auto_repair`, `_handle_replan`); the
  byte-level decode/`splitlines` step is abstracted by passing the decoded
  line list, and blocking reads from the user are oracle parameters.

Fallible Python code (statements that can raise) is embedded in
`Except String`; character-level operations use the ASCII fragment of the
Python semantics, which covers every string the program manipulates here.
-/

namespace BashBard

/-! ## Python string primitives (ASCII fragment) -/

/-- Whitespace per Python `str.strip` (ASCII subset). -/
def pyIsSpace (c : Char) : Bool :=
  c == ' ' || c == '\t' || c == '\n' || c == '\x0d' || c == '\x0b' || c == '\x0c'

/-- Python `str.strip()` with no argument. -/
def pyStrip (s : String) : String :=
  ⟨((s.data.dropWhile pyIsSpace).reverse.dropWhile pyIsSpace).reverse⟩

/-- ASCII lowering of one character, as Python `str.lower` acts on ASCII. -/
def pyLowerChar (c : Char) : Char :=
  if 'A' ≤ c && c ≤ 'Z' then Char.ofNat (c.toNat + 32) else c

/-- Python `str.lower()` (ASCII fragment). -/
def pyLower (s : String) : String := ⟨s.data.map pyLowerChar⟩

/-- Substring containment on character lists: `needle` occurs inside `hay`. -/
def listContains : List Char → List Char → Bool
  | hay, needle =>
    needle.isPrefixOf hay ||
      match hay with
      | [] => false
      | _ :: t => listContains t needle

/-- Python `needle in hay` for strings. -/
def strContains (hay needle : String) : Bool := listContains hay.data needle.data

/-- Python `s.startswith(p)`. -/
def pyStartsWith (s p : String) : Bool := p.data.isPrefixOf s.data

/-- Python `s.endswith(p)`. -/
def pyEndsWith (s p : String) : Bool := p.data.reverse.isPrefixOf s.data.reverse

/-- Truthiness of an optional string-valued dict entry (`None` and `""` are falsy). -/
def pyTruthyOS : Option String → Bool
  | none => false
  | some s => s ≠ ""

/-- Python `x or d` for an optional string field. -/
def pyOrS (x : Option String) (d : String) : String :=
  match x with
  | none => d
  | some s => if s ≠ "" then s else d

/-- Digits of a decimal literal folded to a `Nat`. -/
def natFromDigits (l : List Char) : Nat :=
  l.foldl (fun a c => a * 10 + (c.toNat - 48)) 0

/-- Python `int(s)` on a decimal string: strip whitespace, optional sign,
then a non-empty digit run; `none` models the `ValueError` path. -/
def pyInt (s : String) : Option Int :=
  let t := pyStrip s
  let signDigits : Int × List Char :=
    match t.data with
    | '+' :: r => (1, r)
    | '-' :: r => (-1, r)
    | r => (1, r)
  if signDigits.2 ≠ [] ∧ signDigits.2.all Char.isDigit then
    some (signDigits.1 * (natFromDigits signDigits.2 : Int))
  else none

/-- Python `"\n".join(lines)`. -/
def joinNL (lines : List String) : String := String.intercalate "\n" lines

/-- Python `l[-n:]` on a list, including the `n = 0` quirk (`l[-0:] = l`). -/
def pyLastN (l : List String) (n : Nat) : List String :=
  if n = 0 then l else l.drop (l.length - n)

/-! ## Python `re` engine

A regex AST with the constructs used by `safety.py` and a fueled
backtracking matcher.  `re.search` existence semantics: try every start
position, tracking the previous character for `\b`. -/

/-- Word characters for `\b` and `\w` (ASCII fragment of Python `re`). -/
def isWordChar (c : Char) : Bool := c.isAlphanum || c == '_'

inductive RE where
  /-- empty pattern -/
  | eps : RE
  /-- one character matching the predicate (literals and classes) -/
  | cls (p : Char → Bool) : RE
  | seq (a b : RE) : RE
  | alt (a b : RE) : RE
  | star (r : RE) : RE
  /-- `\b` -/
  | wordB : RE
  /-- `$` (end of string, or just before a final newline) -/
  | eol : RE

/-- Is there a `\b` boundary between `prev` and the head of `s`? -/
def atBoundary (prev : Option Char) (s : List Char) : Bool :=
  let w1 := match prev with | none => false | some c => isWordChar c
  let w2 := match s with | [] => false | c :: _ => isWordChar c
  w1 != w2

/-- Fueled continuation-passing matcher.  Each recursive call strictly
decreases fuel, so with fuel exceeding the match-tree depth it decides
whether a match of `r` starts here. -/
def matchM : Nat → RE → Option Char → List Char → (Option Char → List Char → Bool) → Bool
  | 0, _, _, _, _ => false
  | _ + 1, .eps, prev, s, k => k prev s
  | _ + 1, .cls p, _, s, k =>
    match s with
    | [] => false
    | c :: rest => p c && k (some c) rest
  | fuel + 1, .seq a b, prev, s, k =>
    matchM fuel a prev s (fun p' s' => matchM fuel b p' s' k)
  | fuel + 1, .alt a b, prev, s, k =>
    matchM fuel a prev s k || matchM fuel b prev s k
  | fuel + 1, .star r, prev, s, k =>
    k prev s || matchM fuel r prev s (fun p' s' => matchM fuel (.star r) p' s' k)
  | _ + 1, .wordB, prev, s, k => atBoundary prev s && k prev s
  | _ + 1, .eol, prev, s, k => (s == [] || s == ['\n']) && k prev s

/-- Syntactic size of a pattern, used to pick sufficient fuel. -/
def reSize : RE → Nat
  | .eps => 1
  | .cls _ => 1
  | .seq a b => reSize a + reSize b + 1
  | .alt a b => reSize a + reSize b + 1
  | .star r => reSize r + 1
  | .wordB => 1
  | .eol => 1

/-- Does a match of `r` start at this position? -/
def matchHere (r : RE) (prev : Option Char) (s : List Char) : Bool :=
  matchM (2 * (reSize r + 2) * (s.length + 2)) r prev s (fun _ _ => true)

/-- Try every start position, left to right. -/
def searchFrom (r : RE) (prev : Option Char) (s : List Char) : Bool :=
  matchHere r prev s ||
    match s with
    | [] => false
    | c :: rest => searchFrom r (some c) rest

/-- Python `re.search(r, s) is not None`. -/
def reSearch (r : RE) (s : String) : Bool := searchFrom r none s.data

/-! Pattern-building helpers mirroring the concrete syntax. -/

def reChr (c : Char) : RE := .cls (fun x => x == c)

def reStr (s : String) : RE := s.data.foldr (fun c r => .seq (reChr c) r) .eps

def reCat (l : List RE) : RE := l.foldr .seq .eps

def reOpt (r : RE) : RE := .alt r .eps

def rePlus (r : RE) : RE := .seq r (.star r)

/-- `[^\n]` -/
def reNonNl : RE := .cls (fun c => c != '\n')

/-- `\s` (ASCII fragment) -/
def reSp : RE := .cls pyIsSpace

/-- `\w` -/
def reWd : RE := .cls isWordChar

/-- `[a-z]` -/
def reLowAl : RE := .cls (fun c => 'a' ≤ c && c ≤ 'z')

/-- `[a-z0-9]` -/
def reLowAlnum : RE := .cls (fun c => ('a' ≤ c && c ≤ 'z') || c.isDigit)

/-! ## `safety.py`

`DANGEROUS_PATTERNS`, `ALLOWED_PREFIXES` and `check_danger`, with
`shlex.split` (POSIX mode, `whitespace_split`) embedded explicitly. -/

-- r"\brm\b[^\n]*\b(-rf|--no-preserve-root)\b[^\n]*/\s*$"
def patRmRoot : RE := reCat [.wordB, reStr "rm", .wordB, .star reNonNl, .wordB,
  .alt (reStr "-rf") (reStr "--no-preserve-root"), .wordB, .star reNonNl,
  reChr '/', .star reSp, .eol]

-- r"\brm\b[^\n]*\b(-rf)?\b\s+(\*/\*|\*\s*$)"
def patRmWildcard : RE := reCat [.wordB, reStr "rm", .wordB, .star reNonNl, .wordB,
  reOpt (reStr "-rf"), .wordB, rePlus reSp,
  .alt (reStr "*/*") (reCat [reChr '*', .star reSp, .eol])]

-- r"\bdd\b[^\n]*(of=)?/dev/sd[a-z]\b"
def patDd : RE := reCat [.wordB, reStr "dd", .wordB, .star reNonNl,
  reOpt (reStr "of="), reStr "/dev/sd", reLowAl, .wordB]

-- r"\bmkfs\.[a-z0-9]+\b"
def patMkfs : RE := reCat [.wordB, reStr "mkfs", reChr '.', rePlus reLowAlnum, .wordB]

-- r"\b(:\s*\(\)\s*\{\s*:\|:\s*;\s*\}\s*;\s*:)\b"
def patForkBomb : RE := reCat [.wordB, reChr ':', .star reSp, reChr '(', reChr ')',
  .star reSp, reChr '{', .star reSp, reChr ':', reChr '|', reChr ':', .star reSp,
  reChr ';', .star reSp, reChr '}', .star reSp, reChr ';', .star reSp, reChr ':', .wordB]

-- r"\b(chown|chmod)\b[^\n]*\b-R\b[^\n]*/\s*$"
def patChownRoot : RE := reCat [.wordB, .alt (reStr "chown") (reStr "chmod"), .wordB,
  .star reNonNl, .wordB, reStr "-R", .wordB, .star reNonNl, reChr '/', .star reSp, .eol]

-- r"\bshred\b[^\n]*(/dev/sd[a-z]|/\s*$)"
def patShred : RE := reCat [.wordB, reStr "shred", .wordB, .star reNonNl,
  .alt (reCat [reStr "/dev/sd", reLowAl]) (reCat [reChr '/', .star reSp, .eol])]

-- r"\bshutdown\b|\breboot\b|\bhalt\b"
def patPower : RE := .alt (reCat [.wordB, reStr "shutdown", .wordB])
  (.alt (reCat [.wordB, reStr "reboot", .wordB]) (reCat [.wordB, reStr "halt", .wordB]))

-- r"\bmount\b[^\n]*\b--bind\b[^\n]*/proc\b"
def patMountProc : RE := reCat [.wordB, reStr "mount", .wordB, .star reNonNl, .wordB,
  reStr "--bind", .wordB, .star reNonNl, reStr "/proc", .wordB]

-- r"\buserdel\b[^\n]*\b--remove\b\s+\w+"
def patUserdel : RE := reCat [.wordB, reStr "userdel", .wordB, .star reNonNl, .wordB,
  reStr "--remove", .wordB, rePlus reSp, rePlus reWd]

-- r"\bkill\b\s+-9\s+1\b"
def patKillInit : RE := reCat [.wordB, reStr "kill", .wordB, rePlus reSp, reStr "-9",
  rePlus reSp, reChr '1', .wordB]

-- r"\b(echo|printf)\b[^\n]*\s*>\s*/etc/\w+"
def patWriteEtc : RE := reCat [.wordB, .alt (reStr "echo") (reStr "printf"), .wordB,
  .star reNonNl, .star reSp, reChr '>', .star reSp, reStr "/etc/", rePlus reWd]

-- r"\b(curl|wget)\b[^\n]*\|\s*(sh|bash)\b"
def patPipeShell : RE := reCat [.wordB, .alt (reStr "curl") (reStr "wget"), .wordB,
  .star reNonNl, reChr '|', .star reSp, .alt (reStr "sh") (reStr "bash"), .wordB]

-- r">\s*/(etc|boot|bin|sbin|usr)/"  (used directly inside check_danger)
def patRedirectSystem : RE := reCat [reChr '>', .star reSp, reChr '/',
  .alt (reStr "etc") (.alt (reStr "boot") (.alt (reStr "bin")
    (.alt (reStr "sbin") (reStr "usr")))), reChr '/']

def DANGEROUS_PATTERNS : List (RE × String) := [
  (patRmRoot, "Recursive delete from root"),
  (patRmWildcard, "Wildcard recursive delete"),
  (patDd, "Raw disk write with dd"),
  (patMkfs, "Filesystem creation (mkfs)"),
  (patForkBomb, "Fork bomb"),
  (patChownRoot, "Recursive perm change at root"),
  (patShred, "Shred on device or root"),
  (patPower, "System power action"),
  (patMountProc, "Risky bind mount proc"),
  (patUserdel, "User delete with remove"),
  (patKillInit, "SIGKILL PID 1"),
  (patWriteEtc, "Write into /etc"),
  (patPipeShell, "Pipe remote script to shell")]

def ALLOWED_PREFIXES : List String := [
  "ls", "cat", "head", "tail", "grep", "egrep", "fgrep", "find", "pwd",
  "whoami", "id", "date", "uptime", "df", "du", "free", "uname", "stat",
  "wc", "cut", "sort", "uniq", "echo", "printf", "sed", "awk", "ps",
  "top", "htop", "ss"]

/-- Lexer state of `shlex` in POSIX mode with `whitespace_split = True`. -/
inductive ShlexMode where
  | normal | esc | inSingle | inDouble | escDouble

/-- `shlex.whitespace` (' ', tab, CR, LF). -/
def shlexWhitespace (c : Char) : Bool :=
  c == ' ' || c == '\t' || c == '\x0d' || c == '\n'

/-- The `shlex.split` scan; `.error` models the `ValueError`s it raises. -/
def shlexRun : List Char → ShlexMode → Option String → List String →
    Except String (List String)
  | [], .normal, acc, toks =>
    .ok (toks ++ (match acc with | some t => [t] | none => []))
  | [], .esc, _, _ => .error "ValueError: No escaped character"
  | [], .escDouble, _, _ => .error "ValueError: No escaped character"
  | [], .inSingle, _, _ => .error "ValueError: No closing quotation"
  | [], .inDouble, _, _ => .error "ValueError: No closing quotation"
  | c :: rest, .normal, acc, toks =>
    if shlexWhitespace c then
      match acc with
      | some t => shlexRun rest .normal none (toks ++ [t])
      | none => shlexRun rest .normal none toks
    else if c == '\'' then shlexRun rest .inSingle (some (acc.getD "")) toks
    else if c == '"' then shlexRun rest .inDouble (some (acc.getD "")) toks
    else if c == '\\' then shlexRun rest .esc (some (acc.getD "")) toks
    else shlexRun rest .normal (some ((acc.getD "").push c)) toks
  | c :: rest, .esc, acc, toks =>
    shlexRun rest .normal (some ((acc.getD "").push c)) toks
  | c :: rest, .inSingle, acc, toks =>
    if c == '\'' then shlexRun rest .normal acc toks
    else shlexRun rest .inSingle (some ((acc.getD "").push c)) toks
  | c :: rest, .inDouble, acc, toks =>
    if c == '"' then shlexRun rest .normal acc toks
    else if c == '\\' then shlexRun rest .escDouble acc toks
    else shlexRun rest .inDouble (some ((acc.getD "").push c)) toks
  | c :: rest, .escDouble, acc, toks =>
    if c == '"' || c == '\\' then shlexRun rest .inDouble (some ((acc.getD "").push c)) toks
    else shlexRun rest .inDouble (some (((acc.getD "").push '\\').push c)) toks

/-- Python `shlex.split(s)` (POSIX, whitespace-split, no comments). -/
def shlexSplit (s : String) : Except String (List String) :=
  shlexRun s.data .normal none []

/-- The danger verdict dict `{"danger": ..., "reasons": [...]}`. -/
structure Verdict where
  danger : Bool
  reasons : List String
deriving Repr, DecidableEq

/-- `safety.check_danger`.  The `shlex.split(stripped)[0]` step can raise,
so the embedding lives in `Except`. -/
def check_danger (cmd : String) : Except String Verdict := do
  let stripped := pyStrip cmd
  let reasons := DANGEROUS_PATTERNS.foldl
    (fun acc pl => if reSearch pl.1 stripped then acc ++ [pl.2] else acc) []
  let first ←
    if stripped ≠ "" then do
      let toks ← shlexSplit stripped
      match toks with
      | [] => Except.error "IndexError: list index out of range"
      | t :: _ => pure t
    else pure ""
  let reasons := if strContains stripped "sudo" && !(ALLOWED_PREFIXES.contains first)
    then reasons ++ ["Uses sudo on non-allowlisted command"] else reasons
  let reasons := if reSearch patRedirectSystem stripped
    then reasons ++ ["Redirection into system path"] else reasons
  pure ⟨decide (reasons.length > 0), reasons⟩

/-! ## JSON values and `json.loads`

`_parse_llm_json` runs `json.loads` on model output, which may yield any
JSON value (not only objects); the dynamic type of the result drives the
`AttributeError` behaviour of the callers, so values are embedded in full. -/

inductive Json where
  | jnull : Json
  | jbool (b : Bool) : Json
  /-- a number, kept as its lexeme; only its zero-ness is ever consumed -/
  | jnum (raw : String) : Json
  | jstr (s : String) : Json
  | jarr (items : List Json) : Json
  | jobj (fields : List (String × Json)) : Json
deriving Repr

/-- Whitespace accepted between JSON tokens. -/
def jsonWs (c : Char) : Bool := c == ' ' || c == '\t' || c == '\n' || c == '\x0d'

def skipWs (s : List Char) : List Char := s.dropWhile jsonWs

def hexVal (c : Char) : Option Nat :=
  if c.isDigit then some (c.toNat - 48)
  else if 'a' ≤ c && c ≤ 'f' then some (c.toNat - 87)
  else if 'A' ≤ c && c ≤ 'F' then some (c.toNat - 55)
  else none

/-- Body of a JSON string literal (after the opening quote). -/
def parseJStr : List Char → List Char → Option (String × List Char)
  | '"' :: rest, acc => some (⟨acc.reverse⟩, rest)
  | '\\' :: e :: rest, acc =>
    match e with
    | '"' => parseJStr rest ('"' :: acc)
    | '\\' => parseJStr rest ('\\' :: acc)
    | '/' => parseJStr rest ('/' :: acc)
    | 'b' => parseJStr rest ('\x08' :: acc)
    | 'f' => parseJStr rest ('\x0c' :: acc)
    | 'n' => parseJStr rest ('\n' :: acc)
    | 'r' => parseJStr rest ('\x0d' :: acc)
    | 't' => parseJStr rest ('\t' :: acc)
    | 'u' =>
      match rest with
      | a :: b :: c :: d :: rest' =>
        match hexVal a, hexVal b, hexVal c, hexVal d with
        | some x, some y, some z, some w =>
          let n := ((x * 16 + y) * 16 + z) * 16 + w
          parseJStr rest' (Char.ofNat n :: acc)
        | _, _, _, _ => none
      | _ => none
    | _ => none
  | c :: rest, acc => if c.toNat < 32 then none else parseJStr rest (c :: acc)
  | [], _ => none

/-- A JSON number lexeme: `-?(0|[1-9][0-9]*)(\.[0-9]+)?([eE][+-]?[0-9]+)?`.
A dot or exponent marker not followed by digits is left unconsumed, which
makes the enclosing parse fail exactly where Python's does. -/
def parseJNum (s : List Char) : Option (String × List Char) :=
  let (sign, s1) := match s with | '-' :: r => (['-'], r) | r => (([] : List Char), r)
  let intPart := s1.takeWhile Char.isDigit
  let s2 := s1.dropWhile Char.isDigit
  if intPart = [] then none
  else if intPart.length > 1 ∧ intPart.headD '0' = '0' then none
  else
    let (fracPart, s3) :=
      match s2 with
      | '.' :: r =>
        let ds := r.takeWhile Char.isDigit
        if ds = [] then (([] : List Char), s2) else ('.' :: ds, r.dropWhile Char.isDigit)
      | _ => (([] : List Char), s2)
    let (expPart, s4) :=
      match s3 with
      | e :: r =>
        if e == 'e' || e == 'E' then
          let sgr : List Char × List Char := match r with
            | '+' :: r' => (['+'], r')
            | '-' :: r' => (['-'], r')
            | r' => ([], r')
          let ds := sgr.2.takeWhile Char.isDigit
          if ds = [] then (([] : List Char), s3)
          else (e :: (sgr.1 ++ ds), sgr.2.dropWhile Char.isDigit)
        else (([] : List Char), s3)
      | [] => ([], s3)
    some (⟨sign ++ intPart ++ fracPart ++ expPart⟩, s4)

mutual

/-- Fueled recursive-descent JSON value parser. -/
def parseJVal : Nat → List Char → Option (Json × List Char)
  | 0, _ => none
  | fuel + 1, s =>
    match skipWs s with
    | '{' :: r => parseJObj fuel (skipWs r) []
    | '[' :: r => parseJArr fuel (skipWs r) []
    | '"' :: r => (parseJStr r []).map (fun p => (.jstr p.1, p.2))
    | 't' :: 'r' :: 'u' :: 'e' :: r => some (.jbool true, r)
    | 'f' :: 'a' :: 'l' :: 's' :: 'e' :: r => some (.jbool false, r)
    | 'n' :: 'u' :: 'l' :: 'l' :: r => some (.jnull, r)
    | s' => (parseJNum s').map (fun p => (.jnum p.1, p.2))

/-- Object body after the opening brace (duplicate keys: last value wins,
first position kept). -/
def parseJObj : Nat → List Char → List (String × Json) → Option (Json × List Char)
  | 0, _, _ => none
  | _ + 1, '}' :: r, [] => some (.jobj [], r)
  | fuel + 1, s, acc =>
    match s with
    | '"' :: r => do
      let (k, r1) ← parseJStr r []
      match skipWs r1 with
      | ':' :: r2 => do
        let (v, r3) ← parseJVal fuel r2
        let acc' := if acc.any (fun p => p.1 == k)
          then acc.map (fun p => if p.1 == k then (p.1, v) else p)
          else acc ++ [(k, v)]
        match skipWs r3 with
        | ',' :: r4 => parseJObj fuel (skipWs r4) acc'
        | '}' :: r4 => some (.jobj acc', r4)
        | _ => none
      | _ => none
    | _ => none

/-- Array body after the opening bracket. -/
def parseJArr : Nat → List Char → List Json → Option (Json × List Char)
  | 0, _, _ => none
  | _ + 1, ']' :: r, [] => some (.jarr [], r)
  | fuel + 1, s, acc => do
    let (v, r1) ← parseJVal fuel s
    match skipWs r1 with
    | ',' :: r2 => parseJArr fuel r2 (acc ++ [v])
    | ']' :: r2 => some (.jarr (acc ++ [v]), r2)
    | _ => none

end

/-- Python `json.loads`: `none` models `JSONDecodeError`. -/
def jsonLoads (s : String) : Option Json :=
  match parseJVal (s.length + 2) s.data with
  | some (v, rest) => if skipWs rest = [] then some v else none
  | none => none

/-- Is a number lexeme (numerically) zero? Mantissa digits all `'0'`. -/
def jnumIsZero (raw : String) : Bool :=
  ((raw.data.takeWhile (fun c => c ≠ 'e' ∧ c ≠ 'E')).filter Char.isDigit).all (· == '0')

/-- Python truthiness of a JSON value. -/
def jTruthy : Json → Bool
  | .jnull => false
  | .jbool b => b
  | .jnum raw => ¬ jnumIsZero raw
  | .jstr s => s ≠ ""
  | .jarr l => ¬ l.isEmpty
  | .jobj f => ¬ f.isEmpty

/-- Use of a JSON value where a `str` method is invoked on it — raises on
anything but a string (`AttributeError` and friends). -/
def jStr : Json → Except String String
  | .jstr s => .ok s
  | _ => .error "AttributeError: value is not a str"

/-- Python `data.get(k)` with default `None`; non-dicts have no `.get`. -/
def jGetOpt (j : Json) (k : String) : Except String (Option Json) :=
  match j with
  | .jobj fields => .ok (fields.lookup k)
  | _ => .error "AttributeError: value has no attribute get"

/-- Python `data.get(k, d)`. -/
def jGetD (j : Json) (k : String) (d : Json) : Except String Json :=
  (jGetOpt j k).map (fun o => o.getD d)

/-- Python `x or d` for a JSON value (`d` a JSON value). -/
def pyOrJ (x : Option Json) (d : Json) : Json :=
  match x with
  | none => d
  | some v => if jTruthy v then v else d

/-- Python `(x or "").strip()` for an optional JSON value: empty string for
`None`/falsy, `.strip()` (raising on non-`str`) otherwise. -/
def pyOrEmptyStrip (x : Option Json) : Except String String :=
  match x with
  | none => .ok ""
  | some v => if jTruthy v then (jStr v).map pyStrip else .ok ""

/-- Python `x.lower()` on a JSON value (raises on non-`str`). -/
def jLower (x : Json) : Except String String := (jStr x).map pyLower

/-- Best-effort `str(x)` rendering used only inside prompt f-strings
(never raises; the exact rendering of non-strings is immaterial because
prompts only feed the opaque LLM parameter). -/
def jRender : Json → String
  | .jnull => "None"
  | .jbool b => if b then "True" else "False"
  | .jnum raw => raw
  | .jstr s => s
  | .jarr _ => "[...]"
  | .jobj _ => "\x7b...\x7d"

/-! ## `state.py` and `nodes.py`

The shared `State` TypedDict: every key optional (`none` = key absent).
Fields that receive raw values from `_parse_llm_json` are `Json`-typed,
since the dynamic type drives later crashes; fields only ever written with
strings by the code keep type `String`. -/

structure RunResult where
  exit_code : Int
  stdout : String
  stderr : String
deriving Repr, DecidableEq

structure State where
  user_request : Option String := none
  last_command : Option String := none
  last_error : Option String := none
  direct_command : Option String := none
  candidate_command : Option Json := none
  candidate_explanation : Option Json := none
  candidate_mode : Option String := none
  danger : Option Bool := none
  danger_reasons : Option (List String) := none
  approval : Option String := none
  user_feedback : Option String := none
  result : Option RunResult := none
  dry_run : Option Bool := none
  quiet : Option Bool := none
  interactive : Option Bool := none
  fix_decision : Option String := none
  source : Option String := none
  strict_json : Option Bool := none
deriving Repr

/-- Python `x.splitlines()` (ASCII terminators `\n`, `\r`, `\r\n`). -/
def pySplitlinesAux : List Char → List Char → List String
  | [], acc => if acc.isEmpty then [] else [⟨acc.reverse⟩]
  | '\x0d' :: '\n' :: rest, acc => String.mk acc.reverse :: pySplitlinesAux rest []
  | '\x0d' :: rest, acc => String.mk acc.reverse :: pySplitlinesAux rest []
  | '\n' :: rest, acc => String.mk acc.reverse :: pySplitlinesAux rest []
  | c :: rest, acc => pySplitlinesAux rest (c :: acc)

def pySplitlines (s : String) : List String := pySplitlinesAux s.data []

/-- Python `str.rstrip()`. -/
def pyRStrip (s : String) : String := ⟨(s.data.reverse.dropWhile pyIsSpace).reverse⟩

/-- `_parse_llm_json`: strip optional code fences, `json.loads`, retry on the
outermost brace-delimited substring, else the plain-text fallback record. -/
def _parse_llm_json (content : String) : Json :=
  let text := pyStrip content
  let text :=
    if pyStartsWith text "```" then
      let lines := pySplitlines text
      let body := joinNL (lines.drop 1)
      let body := if pyEndsWith (pyRStrip body) "```"
        then ⟨(pyRStrip body).data.dropLast.dropLast.dropLast⟩ else body
      pyStrip body
    else text
  match jsonLoads text with
  | some v => v
  | none =>
    let sub : Option String :=
      if (text.data.contains '{') ∧ (text.data.contains '}') then
        let start := (text.data.takeWhile (· ≠ '{')).length
        let stop := text.data.length - (text.data.reverse.takeWhile (· ≠ '}')).length
        some ⟨(text.data.take stop).drop start⟩
      else none
    match sub with
    | some t =>
      match jsonLoads t with
      | some v => v
      | none => .jobj [("command", .jstr text),
          ("explanation", .jstr "Model returned plain text; review carefully."),
          ("mode", .jstr "run")]
    | none => .jobj [("command", .jstr text),
        ("explanation", .jstr "Model returned plain text; review carefully."),
        ("mode", .jstr "run")]

/-- The dict returned by `from_english` / `from_error` (three fixed keys). -/
structure TransUpd where
  candidate_command : Json
  candidate_explanation : Json
  candidate_mode : String
deriving Repr

/-- The dict returned by `replan` (two fixed keys). -/
structure ReplanUpd where
  candidate_command : Json
  candidate_explanation : Json
deriving Repr

def from_english_base_prompt (user_request : String) : String :=
  "You are a Linux shell expert. Convert the user\x27s natural-language request into a single, safe (if possible), POSIX-compatible command when possible.\n" ++
  "If the command is dangerous, return the command and explanation; a separate danger check will assess it before running.\n" ++
  "Return ONLY JSON with keys: command, explanation, mode. NO prose, NO code fences.\n" ++
  "If no safe/runnable command is appropriate, set mode to \x27explain\x27 and put your guidance in \x27explanation\x27 and leave \x27command\x27 empty.\n" ++
  "Request: " ++ user_request

def strict_schema_suffix : String :=
  "\nRespond STRICTLY in JSON. No extra text. Schema: \x7b\"command\": string, \"explanation\": string, \"mode\": \"run\"|\"explain\"\x7d."

def from_error_base_prompt (intent last_command last_error : String) : String :=
  "You are a Linux CLI fixer. Given a command that failed and its error output, propose a corrected command.\n" ++
  "Assume a typical Debian/Ubuntu environment unless specified.\n" ++
  "If the intent is ambiguous, choose the most likely command.\n" ++
  "Return ONLY JSON: \x7bcommand, explanation, mode\x7d. NO prose, NO code fences.\n" ++
  "If the best action is to explain instead of running anything (e.g., user typed a non-existent command or must supply operands), set mode to \x27explain\x27 and leave \x27command\x27 empty.\n\n" ++
  "Intent (optional): " ++ intent ++ "\n" ++
  "Command: " ++ last_command ++ "\n" ++
  "Error: " ++ last_error ++ "\n"

/-- Shared attempt loop of `from_english` / `from_error`: try each prompt,
remember the last exception, parse the first reply obtained.  The `strict`
retry re-prompts when the parse fell back to the plain-text record. -/
def transAttempts (llm : String → Except String String) (strict : Bool) :
    List String → Option String → Except String TransUpd
  | [], none => .ok ⟨.jstr "", .jstr "", "explain"⟩
  | [], some e => .ok ⟨.jstr "", .jstr ("LLM error: " ++ e), "explain"⟩
  | p :: rest, lastExc =>
    match llm p with
    | .error e => transAttempts llm strict rest (some e)
    | .ok content => do
      let data := _parse_llm_json content
      let retryPlain ←
        if strict then do
          let ej ← jGetD data "explanation" (.jstr "")
          let es ← jLower ej
          pure (pyStartsWith es "model returned plain text")
        else pure false
      if retryPlain then transAttempts llm strict rest lastExc
      else do
        let mj ← jGetOpt data "mode"
        let ms ← jStr (pyOrJ mj (.jstr "run"))
        let mode := pyLower (pyStrip ms)
        let cj ← jGetD data "command" (.jstr "")
        let ej ← jGetD data "explanation" (.jstr "")
        pure ⟨cj, ej, mode⟩

/-- `nodes.from_english`. `llm p` is the outcome of
`_llm_invoke_with_timeout` on prompt `p`: `.error` covers transport
exceptions and the `TimeoutError` raised when the 30 s bound expires. -/
def from_english (llm : String → Except String String) (st : State) :
    Except String TransUpd := do
  let strict := st.strict_json.getD false
  let ur ← match st.user_request with
    | some u => pure u
    | none => Except.error "KeyError: user_request"
  let base := from_english_base_prompt ur
  let prompts := if strict then [base, base ++ strict_schema_suffix] else [base]
  transAttempts llm strict prompts none

/-- `nodes.from_error`. -/
def from_error (llm : String → Except String String) (st : State) :
    Except String TransUpd := do
  let intent := st.user_request.getD ""
  let strict := st.strict_json.getD false
  let lc ← match st.last_command with
    | some u => pure u
    | none => Except.error "KeyError: last_command"
  let le ← match st.last_error with
    | some u => pure u
    | none => Except.error "KeyError: last_error"
  let base := from_error_base_prompt intent lc le
  let prompts := if strict then [base, base ++ strict_schema_suffix] else [base]
  transAttempts llm strict prompts none

/-- `nodes.from_direct`: pass a directly-entered command through. -/
def from_direct (st : State) : State :=
  let cmd := pyStrip (st.direct_command.getD "")
  if cmd = "" then
    {st with candidate_command := some (.jstr ""), candidate_explanation := some (.jstr "")}
  else
    {st with
      candidate_command := some (.jstr cmd)
      candidate_explanation := some (.jstr "Direct command")
      candidate_mode := some "run"
      source := some "direct"}

def intent_keywords : List String := [
  "delete the root", "rm -rf /", "wipe disk", "format /", "destroy all", "erase all",
  "drop database", "remove all files", "shred", "mkfs", "reboot", "shutdown"]

/-- Core of `nodes.danger_check`: the `(danger, danger_reasons)` it computes. -/
def dangerCheckCore (st : State) : Except String (Bool × List String) := do
  let out ← match st.candidate_command with
    | some j =>
      if jTruthy j then do
        let c ← jStr j
        check_danger c
      else pure ⟨true, ["No command generated"]⟩
    | none => pure (⟨true, ["No command generated"]⟩ : Verdict)
  let reasons := out.reasons
  let isD := out.danger
  let req := pyLower (pyOrS st.user_request "")
  let expl ← match st.candidate_explanation with
    | none => pure ""
    | some j => if jTruthy j then jLower j else pure ""
  let hit1 := intent_keywords.any (fun k => strContains req k)
  let isD := if hit1 then true else isD
  let reasons := if hit1 then reasons ++ ["User intent appears destructive"] else reasons
  let hit2 := strContains expl "dangerous" || strContains expl "warning" ||
    strContains expl "destructive"
  let isD := if hit2 then true else isD
  let reasons := if hit2 then reasons ++ ["Explanation indicates danger"] else reasons
  pure (isD, reasons)

/-- `nodes.danger_check` as a graph node (merges its two keys). -/
def danger_check (st : State) : Except String State :=
  (dangerCheckCore st).map
    (fun p => {st with danger := some p.1, danger_reasons := some p.2})

/-- `nodes.approval_gate`.  `ans` and `fb` stand for the two `input()`
reads (answer, replan feedback). -/
def approval_gate (ans fb : String) (st : State) : Except String State := do
  if st.source = some "direct" then pure {st with approval := some "auto"}
  else if st.candidate_mode = some "explain" then pure {st with approval := some "cancelled"}
  else do
    let cmd_text ← pyOrEmptyStrip st.candidate_command
    if cmd_text ≠ "" ∧ strContains cmd_text "<" ∧ strContains cmd_text ">" then
      let expl := pyOrJ st.candidate_explanation
        (.jstr "The proposed command includes placeholders (e.g., <...>). Replace them with real values and run again.")
      pure {st with
        approval := some "cancelled"
        candidate_mode := some "explain"
        candidate_explanation := some expl}
    else
      let is_dangerous := st.danger.getD false
      if ¬ is_dangerous then
        if (jTruthy (st.candidate_explanation.getD .jnull)) ∧ ¬ (st.quiet.getD false) then
          match st.candidate_command with
          | some _ => pure {st with approval := some "auto"}
          | none => Except.error "KeyError: candidate_command"
        else pure {st with approval := some "auto"}
      else do
        let _ ← match st.candidate_command with
          | some j => pure j
          | none => Except.error "KeyError: candidate_command"
        let a := pyLower (pyStrip ans)
        if a = "y" ∨ a = "yes" then pure {st with approval := some "approved"}
        else if a = "e" then
          pure {st with approval := some "rejected", user_feedback := some (pyStrip fb)}
        else pure {st with approval := some "cancelled"}

def replan_prompt (original feedback : String) : String :=
  "Rewrite the following shell command to satisfy the user\x27s feedback while minimizing risk.\n" ++
  "Prefer read-only or non-destructive forms. If write action is required, add the smallest scope and backup/--dry-run flags where available.\n" ++
  "Return JSON: \x7bcommand, explanation\x7d.\n\n" ++
  "Original: " ++ original ++ "\n" ++
  "Feedback: " ++ feedback ++ "\n"

/-- `nodes.replan`.  Only the LLM call is under `try`; the `data.get`
accesses after parsing can still raise. -/
def replan (llm : String → Except String String) (st : State) :
    Except String ReplanUpd := do
  let feedback := st.user_feedback.getD "Safer alternative"
  let original := jRender (st.candidate_command.getD (.jstr ""))
  match llm (replan_prompt original feedback) with
  | .error e => pure ⟨.jstr "", .jstr ("LLM error: " ++ e)⟩
  | .ok content => do
    let data := _parse_llm_json content
    let cj ← jGetD data "command" (.jstr "")
    let ej ← jGetD data "explanation" (.jstr "")
    pure ⟨cj, ej⟩

/-- `nodes.run_command`.  `runner` is the `subprocess.run` collaborator;
`dryDefault` is `os.getenv("DRY_RUN", "1") == "1"`. -/
def run_command (runner : String → RunResult) (dryDefault : Bool) (st : State) :
    Except String State := do
  let cmdJ := st.candidate_command.getD (.jstr "")
  if ¬ jTruthy cmdJ then
    pure {st with result := some ⟨1, "", "No command to run."⟩}
  else
    let dry := match st.dry_run with | some b => b | none => dryDefault
    if dry then pure {st with result := some ⟨0, "(dry-run) not executed", ""⟩}
    else do
      let cmd ← jStr cmdJ
      let res := runner cmd
      if res.exit_code ≠ 0 then
        pure {st with
          result := some res
          last_command := some cmd
          last_error := some (if res.stderr ≠ "" then res.stderr else "(no stderr captured)")}
      else pure {st with result := some res}

/-- The retry loop of `nodes.error_decision` over successive `input()` reads. -/
def errorDecisionLoop : List String → Except String String
  | [] => .error "EOFError"
  | a :: rest =>
    let ans := pyLower (pyStrip a)
    if ans = "y" ∨ ans = "yes" then .ok "llm"
    else if ans = "n" ∨ ans = "no" ∨ ans = "" then .ok "stop"
    else errorDecisionLoop rest

/-- `nodes.error_decision`. -/
def error_decision (answers : List String) (st : State) : Except String State :=
  if ¬ (st.interactive.getD false) then .ok {st with fix_decision := some "stop"}
  else (errorDecisionLoop answers).map (fun d => {st with fix_decision := some d})

/-- `nodes.route`: pick the path from whichever input field is populated;
the `.error` is the `ValueError` raised when none is. -/
def route (st : State) : Except String String :=
  if pyTruthyOS st.user_request then .ok "from_english"
  else if pyTruthyOS st.last_command ∧ pyTruthyOS st.last_error then .ok "from_error"
  else if pyTruthyOS st.direct_command then .ok "from_direct"
  else .error "ValueError: Provide either --english or --fix with --cmd and --err"

/-! ## `graph.py`

The compiled LangGraph as a small-step transition function on
(node, state); `END` is the terminal node.  The environment bundles the
external collaborators a run may consult. -/

inductive GNode where
  | router
  | from_english
  | from_error
  | from_direct
  | danger_check
  | approval_gate
  | replan
  | run
  | error_decision
  | END
deriving Repr, DecidableEq

structure GraphEnv where
  /-- outcome of the LLM transport per prompt (timeout included as `.error`) -/
  llm : String → Except String String
  /-- the `input()` read inside `approval_gate` -/
  approvalAns : String := ""
  /-- the feedback `input()` read inside `approval_gate` -/
  approvalFeedback : String := ""
  /-- successive `input()` reads inside `error_decision` -/
  decisionAnswers : List String := []
  /-- the `subprocess.run` collaborator -/
  runner : String → RunResult := fun _ => ⟨0, "", ""⟩
  /-- `os.getenv("DRY_RUN", "1") == "1"` -/
  dryRunEnvDefault : Bool := true

/-- `post_approval` conditional edge. -/
def post_approval (st : State) : GNode :=
  if st.approval = some "auto" ∨ st.approval = some "approved" then .run
  else if st.approval = some "cancelled" then .END
  else .replan

/-- `post_run` conditional edge. -/
def post_run (st : State) : GNode :=
  match st.result with
  | some r => if r.exit_code ≠ 0 then .error_decision else .END
  | none => .END

/-- `post_decision` conditional edge. -/
def post_decision (st : State) : GNode :=
  if st.fix_decision = some "llm" then .from_error else .END

/-- Apply the three-key dict returned by `from_english` / `from_error`. -/
def applyTrans (st : State) (u : TransUpd) : State :=
  {st with
    candidate_command := some u.candidate_command
    candidate_explanation := some u.candidate_explanation
    candidate_mode := some u.candidate_mode}

/-- Apply the two-key dict returned by `replan`. -/
def applyReplan (st : State) (u : ReplanUpd) : State :=
  {st with
    candidate_command := some u.candidate_command
    candidate_explanation := some u.candidate_explanation}

/-- One step of the compiled graph: execute the current node, merge its
update, follow its (conditional) edge. -/
def step (env : GraphEnv) : GNode → State → Except String (GNode × State)
  | .router, s => do
    let name ← route s
    let nxt : GNode :=
      if name = "from_english" then .from_english
      else if name = "from_error" then .from_error
      else .from_direct
    pure (nxt, s)
  | .from_english, s =>
    (from_english env.llm s).map (fun u => (.danger_check, applyTrans s u))
  | .from_error, s =>
    (from_error env.llm s).map (fun u => (.danger_check, applyTrans s u))
  | .from_direct, s => pure (.run, from_direct s)
  | .danger_check, s => (danger_check s).map (fun s' => (.approval_gate, s'))
  | .approval_gate, s =>
    (approval_gate env.approvalAns env.approvalFeedback s).map
      (fun s' => (post_approval s', s'))
  | .replan, s => (replan env.llm s).map (fun u => (.danger_check, applyReplan s u))
  | .run, s =>
    (run_command env.runner env.dryRunEnvDefault s).map (fun s' => (post_run s', s'))
  | .error_decision, s => (error_decision env.decisionAnswers s).map
      (fun s' => (post_decision s', s'))
  | .END, s => pure (.END, s)

/-- Run `n` steps from a node, recording the nodes executed (END stops). -/
def runSteps (env : GraphEnv) : Nat → GNode → State →
    Except String (List GNode × GNode × State)
  | 0, n, s => .ok ([], n, s)
  | k + 1, n, s =>
    if n = .END then .ok ([], .END, s)
    else
      match step env n s with
      | .error e => .error e
      | .ok (n', s') =>
        match runSteps env k n' s' with
        | .error e => .error e
        | .ok (tr, nf, sf) => .ok (n :: tr, nf, sf)

/-! ## `daemon.py`

`_handle_preexec` and `_handle_postexec`.  The daemon never executes
anything; it classifies and advises.  Payload fields arrive JSON-decoded;
the `or`-defaults of the handlers are embedded directly. -/

/-- The response dicts the two handlers can produce. -/
inductive DaemonResp where
  /-- `{"action": "message", "message": ...}` -/
  | message (msg : Json)
  /-- `{"action": "replace", "command", "explanation", "require_confirmation", "danger_reasons", "cwd"}` -/
  | replace (command : String) (explanation : Json) (require_confirmation : Bool)
      (danger_reasons : List String) (cwd : String)
  /-- `{"action": "proceed", "command", "require_confirmation", "danger_reasons", "cwd"}` -/
  | proceed (command : String) (require_confirmation : Bool)
      (danger_reasons : List String) (cwd : String)
  /-- `{"action": "ok"}` -/
  | okResp
  /-- `{"action": "no_fix", "explanation": ...}` -/
  | no_fix (explanation : Json)
  /-- `{"action": "suggest_fix", "suggested_command", "explanation", "danger", "danger_reasons"}` -/
  | suggest_fix (suggested_command : String) (explanation : Json) (danger : Bool)
      (danger_reasons : List String)
deriving Repr

structure PreexecPayload where
  cmd : Option String := none
  cwd : Option String := none
deriving Repr

structure PostexecPayload where
  cmd : Option String := none
  exit_code : Option Int := none
  stderr_tail : Option String := none
deriving Repr

/-- `daemon._handle_preexec`; `defaultCwd` stands for `os.getcwd()`. -/
def _handle_preexec (llm : String → Except String String) (defaultCwd : String)
    (p : PreexecPayload) : Except String DaemonResp := do
  let cmd := pyStrip (pyOrS p.cmd "")
  let cwd := pyOrS p.cwd defaultCwd
  if pyStartsWith cmd "/e " then do
    let request := pyStrip ⟨cmd.data.drop 3⟩
    let st : State := {user_request := some request}
    let out ← from_english llm st
    let candidate ← pyOrEmptyStrip (some out.candidate_command)
    let expl := pyOrJ (some out.candidate_explanation) (.jstr "")
    if candidate = "" then
      pure (.message (pyOrJ (some expl) (.jstr "No runnable command produced.")))
    else do
      let d ← dangerCheckCore {candidate_command := some (.jstr candidate)}
      pure (.replace candidate expl d.1 d.2 cwd)
  else do
    let d ← dangerCheckCore {candidate_command := some (.jstr cmd)}
    pure (.proceed cmd d.1 d.2 cwd)

/-- `int(payload.get("exit_code") or 0)` with integer payloads. -/
def postexecExitCode (p : PostexecPayload) : Int :=
  match p.exit_code with
  | none => 0
  | some n => if n ≠ 0 then n else 0

/-- `daemon._handle_postexec`. -/
def _handle_postexec (llm : String → Except String String)
    (p : PostexecPayload) : Except String DaemonResp := do
  let cmd := pyOrS p.cmd ""
  let exit_code : Int := postexecExitCode p
  let stderr_tail := pyOrS p.stderr_tail ""
  if exit_code = 0 then pure .okResp
  else do
    let st : State := {last_command := some cmd, last_error := some stderr_tail}
    let out ← from_error llm st
    let suggestion ← pyOrEmptyStrip (some out.candidate_command)
    let expl := pyOrJ (some out.candidate_explanation) (.jstr "")
    if suggestion = "" then pure (.no_fix expl)
    else do
      let d ← dangerCheckCore {candidate_command := some (.jstr suggestion)}
      pure (.suggest_fix suggestion expl d.1 d.2)

/-! ## `terminal.py`

The output-context tracker of `AITerminal`.  Only the fields touched by
`append_output_context` and the repair path are modelled; the blocking
`_read_line_raw` prompts are oracle string parameters, and PTY writes
(pure output) are dropped. -/

structure Term where
  last_output_lines : List String := []
  max_context_lines : Nat := 100
  last_failed_command : Option String := none
  last_error_text : Option String := none
  last_repair_suggestion : Option String := none
  /-- `_pending_cmd` -/
  pending_cmd : Option String := none
  /-- `_pending_output_start` -/
  pending_output_start : Nat := 0
  /-- `_repair_in_progress` -/
  repair_in_progress : Bool := false
  /-- `_last_repaired_for_cmd` -/
  last_repaired_for_cmd : Option String := none
  /-- `_repair_attempts` -/
  repair_attempts : List (String × Nat) := []
  dry_run : Bool := false
  quiet : Bool := false
  auto_repair : Bool := false
  interactive_repair : Bool := true
deriving Repr

/-- `AITerminal.__init__(dry_run, quiet)`. -/
def AITerminal_init (dry_run quiet : Bool) : Term :=
  {dry_run := dry_run, quiet := quiet}

/-- Oracle for the blocking interactions of the repair path. -/
structure TOracle where
  llm : String → Except String String
  /-- answer to the no-fix replan/edit/cancel prompt -/
  noFixAns : String := ""
  /-- answer to `_prompt_fix_choice` -/
  fixAns : String := ""
  /-- answer typed at the dangerous-command confirmation -/
  approveAns : String := ""
  /-- answer to `_prompt_replan_feedback` -/
  replanFeedbackAns : String := ""

/-- Drop a literal character-list prefix. -/
def dropLit : List Char → List Char → Option (List Char)
  | s, [] => some s
  | c :: s, l :: ls => if c == l then dropLit s ls else none
  | [], _ :: _ => none

/-- Match `r《"command"\s*:\s*"(.*?)"》` at this exact position (DOTALL,
non-greedy group: capture up to the first closing quote). -/
def extractAt (s : List Char) : Option String := do
  let s1 ← dropLit s ("\"command\"".data)
  let s2 := s1.dropWhile pyIsSpace
  let s3 ← match s2 with | ':' :: r => some r | _ => none
  let s4 := s3.dropWhile pyIsSpace
  let s5 ← match s4 with | '"' :: r => some r | _ => none
  if s5.contains '"' then some ⟨s5.takeWhile (· ≠ '"')⟩ else none

/-- Leftmost search for `extractAt` (the `re.search` of the sanitizer). -/
def extractCommandField : List Char → Option String
  | [] => none
  | s@(_ :: rest) =>
    match extractAt s with
    | some r => some r
    | none => extractCommandField rest

/-- `terminal._sanitize_llm_command_text`.  The `isinstance(text, str)`
guard makes this total over JSON values. -/
def _sanitize_llm_command_text (j : Json) : Option String :=
  match j with
  | .jstr text =>
    let candidate := pyStrip text
    if strContains candidate "\"command\"" || pyStartsWith candidate "\x7b" then
      match extractCommandField candidate.data with
      | some g =>
        let extracted := pyStrip g
        let extracted := pyStrip ((extracted.replace "\x0d" " ").replace "\n" " ")
        if extracted ≠ "" then some extracted else none
      | none => none
    else if strContains candidate "\n" || strContains candidate "\x0d" then none
    else if candidate ≠ "" then some candidate else none
  | _ => none

/-- `terminal.repair_command_if_needed`: `from_error` with the strict flag,
sanitized; every exception is caught and becomes `none`. -/
def repair_command_if_needed (llm : String → Except String String)
    (prev_cmd last_output_chunk : String) : Option String :=
  let attempt : Except String (Option String) := do
    let result ← from_error llm
      {last_command := some prev_cmd, last_error := some last_output_chunk,
       dry_run := some false, quiet := some true, strict_json := some true}
    let mode := pyLower (if result.candidate_mode ≠ "" then result.candidate_mode else "run")
    if jTruthy result.candidate_command ∧ mode ≠ "explain" then
      pure (_sanitize_llm_command_text result.candidate_command)
    else pure none
  match attempt with
  | .error _ => none
  | .ok r => r

/-- `terminal.approval_gate`: danger check plus a blocking y/N read when
dangerous; any exception defaults to allowing. -/
def terminal_approval_gate (ans : String) (cmd : String) : Bool :=
  match check_danger cmd with
  | .error _ => true
  | .ok v =>
    if v.danger then (pyLower ans == "y" || pyLower ans == "yes")
    else true

/-- `self._repair_attempts[k] = self._repair_attempts.get(k, 0) + 1`. -/
def bumpAttempt (d : List (String × Nat)) (k : String) : List (String × Nat) :=
  if d.any (fun p => p.1 == k) then
    d.map (fun p => if p.1 == k then (p.1, p.2 + 1) else p)
  else d ++ [(k, 1)]

/-- `if k in self._repair_attempts: del self._repair_attempts[k]`. -/
def delAttempt (d : List (String × Nat)) (k : String) : List (String × Nat) :=
  d.filter (fun p => ¬ p.1 == k)

/-- The run/edit/replan/cancel mapping of `_prompt_fix_choice`. -/
def fixChoiceOf (ans : String) : String :=
  let a := pyLower (pyStrip ans)
  if pyStartsWith a "r" then "run"
  else if pyStartsWith a "e" then "edit"
  else if pyStartsWith a "p" then "replan"
  else "cancel"

/-- `AITerminal._should_attempt_repair`. -/
def _should_attempt_repair (command : Option String) : Bool := pyTruthyOS command

/-- `AITerminal._handle_replan`: replan via the LLM, approval-gate the
result, mark it pending; every exception is caught. -/
def terminal_handle_replan (o : TOracle) (t : Term) (base_command feedback : String) : Term :=
  let attempt : Except String String := do
    let out ← replan o.llm
      {candidate_command := some (.jstr base_command), user_feedback := some feedback}
    pyOrEmptyStrip (some out.candidate_command)
  match attempt with
  | .error _ => t
  | .ok new_cmd =>
    if new_cmd = "" then t
    else if ¬ terminal_approval_gate o.approveAns new_cmd then t
    else {t with
      pending_cmd := some new_cmd
      pending_output_start := t.last_output_lines.length}

/-- The `_try_auto_repair` arm taken when no (non-blank) fix was produced:
offer replan / edit / cancel ("e" and "c" only write to the terminal). -/
def tryAutoRepairNoFix (o : TOracle) (t1 : Term) (failedCmd : String) : Term :=
  if pyStartsWith (pyLower (pyStrip o.noFixAns)) "p" then
    terminal_handle_replan o t1 failedCmd (pyStrip o.replanFeedbackAns)
  else t1

/-- The `_try_auto_repair` arm taken on a suggestion `r`: record it, take
the four-way choice when `interactive` (= `self.interactive_repair`),
approval-gate a run, then mark the suggestion pending. -/
def tryAutoRepairWithFix (o : TOracle) (t1 : Term) (failedCmd r : String)
    (interactive : Bool) : Term :=
  let t' := {t1 with
    last_repair_suggestion := some r
    last_repaired_for_cmd := some failedCmd}
  if interactive ∧ fixChoiceOf o.fixAns = "cancel" then t'
  else if interactive ∧ fixChoiceOf o.fixAns = "edit" then t'
  else if interactive ∧ fixChoiceOf o.fixAns = "replan" then
    terminal_handle_replan o t' failedCmd (pyStrip o.replanFeedbackAns)
  else if ¬ terminal_approval_gate o.approveAns r then t'
  else {t' with
    pending_cmd := some r
    pending_output_start := t'.last_output_lines.length}

/-- `AITerminal._try_auto_repair`: the guards, the attempt bump, the
repair call, the two arms, and the `finally` reset of the in-progress
flag. -/
def _try_auto_repair (o : TOracle) (t : Term) : Term :=
  if ¬ (pyTruthyOS t.last_failed_command ∧ pyTruthyOS t.last_error_text) then t
  else if ¬ t.auto_repair then t
  else if t.repair_in_progress then t
  else if ¬ _should_attempt_repair t.last_failed_command then t
  else
    let failedCmd := t.last_failed_command.getD ""
    let t1 := {t with
      repair_in_progress := true
      repair_attempts := bumpAttempt t.repair_attempts failedCmd}
    let t2 :=
      match repair_command_if_needed o.llm failedCmd (t.last_error_text.getD "") with
      | none => tryAutoRepairNoFix o t1 failedCmd
      | some r =>
        if pyStrip r = "" then tryAutoRepairNoFix o t1 failedCmd
        else tryAutoRepairWithFix o t1 failedCmd r t.interactive_repair
    {t2 with repair_in_progress := false}

/-- `line[len("[[AI:STATUS:"):-2]`. -/
def statusLineCode (line : String) : String :=
  ⟨(line.data.drop 12).take (line.data.length - 14)⟩

/-- The body of `append_output_context`'s `for line in lines` loop. -/
def processLine (o : TOracle) (t : Term) (line : String) : Term :=
  let t := {t with last_output_lines := t.last_output_lines ++ [line]}
  if t.pending_cmd.isSome ∧ strContains (pyLower line) "command not found" then
    let start := max 0 t.pending_output_start
    let error_lines := t.last_output_lines.drop start
    let t := {t with
      last_failed_command := t.pending_cmd
      last_error_text := some (joinNL error_lines)}
    let t := _try_auto_repair o t
    {t with
      pending_cmd := none
      pending_output_start := t.last_output_lines.length}
  else if pyStartsWith line "[[AI:STATUS:" ∧ pyEndsWith line "]]" then
    let exit_code : Int := (pyInt (statusLineCode line)).getD 0
    if t.pending_cmd.isSome then
      let t :=
        if exit_code ≠ 0 then
          let start := max 0 t.pending_output_start
          let error_lines :=
            (t.last_output_lines.take (t.last_output_lines.length - 1)).drop start
          let t := {t with
            last_failed_command := t.pending_cmd
            last_error_text := some (joinNL error_lines)}
          _try_auto_repair o t
        else
          {t with repair_attempts := delAttempt t.repair_attempts (t.pending_cmd.getD "")}
      {t with
        pending_cmd := none
        pending_output_start := t.last_output_lines.length}
    else t
  else t

/-- `AITerminal.append_output_context` on one decoded chunk (`lines` is the
`splitlines` of the chunk), including the final capacity trim. -/
def append_output_context (o : TOracle) (t : Term) (lines : List String) : Term :=
  let t := lines.foldl (processLine o) t
  if t.last_output_lines.length > t.max_context_lines then
    {t with last_output_lines := pyLastN t.last_output_lines t.max_context_lines}
  else t

/-- A graph environment whose collaborators are all inert (the LLM
transport fails); several claims use it to instantiate theorems. -/
def env0 : GraphEnv := {llm := fun _ => .error "provider unavailable"}

/-- The inert terminal oracle. -/
def oracle0 : TOracle := {llm := fun _ => .error "provider unavailable"}

/-- An LLM collaborator answering every prompt with a fixed well-formed
JSON record proposing `ls -a`. -/
def llmC9 : String → Except String String :=
  fun _ => .ok "\x7b\"command\": \"ls -a\", \"explanation\": \"use -a\", \"mode\": \"run\"\x7d"

end BashBard

deriving instance DecidableEq for Except

namespace BashBard

/-! ## Theorems -/

lemma ebind_ok {ε α β : Type} (a : α) (f : α → Except ε β) :
    (Except.ok a >>= f) = f a := rfl

/-- `C1`: the spec says a request populating more than one input kind is
rejected as malformed before any translation.  Counterexample: a request
with both the natural-language field and the direct-command field set is
routed to `from_english` (the translation node) — `route` only raises when
no field at all is populated. -/
theorem C1_counterexample :
    route {user_request := some "list the files", direct_command := some "ls"} =
      .ok "from_english" ∧
    step env0 .router {user_request := some "list the files", direct_command := some "ls"} =
      .ok (.from_english, {user_request := some "list the files", direct_command := some "ls"}) :=
  ⟨rfl, rfl⟩

/-- `C1` (amended): `route` rejects a request as malformed exactly when no
input kind is populated; when several are set it silently selects the path
by fixed priority — natural-language first, then the (failed-command,
error) pair, then the direct command. -/
theorem C1_route_priority (s : State) :
    ((∃ nm, route s = .ok nm) ↔
      (pyTruthyOS s.user_request = true ∨
       (pyTruthyOS s.last_command = true ∧ pyTruthyOS s.last_error = true) ∨
       pyTruthyOS s.direct_command = true)) ∧
    (pyTruthyOS s.user_request = true → route s = .ok "from_english") ∧
    (pyTruthyOS s.user_request = false →
      pyTruthyOS s.last_command = true → pyTruthyOS s.last_error = true →
      route s = .ok "from_error") ∧
    (pyTruthyOS s.user_request = false →
      ¬ (pyTruthyOS s.last_command = true ∧ pyTruthyOS s.last_error = true) →
      pyTruthyOS s.direct_command = true → route s = .ok "from_direct") := by
  unfold route
  cases h1 : pyTruthyOS s.user_request <;>
    cases h2 : pyTruthyOS s.last_command <;>
    cases h3 : pyTruthyOS s.last_error <;>
    cases h4 : pyTruthyOS s.direct_command <;>
    simp

/-- `C1` (amended) at a concrete input: both the natural-language and the
direct field populated routes to `from_english`. -/
theorem C1_route_priority_witness :
    route {user_request := some "wipe it", direct_command := some "ls"} =
      .ok "from_english" :=
  (C1_route_priority _).2.1 rfl

/-- `C2`: of the four example dangerous commands, only `mkfs.ext4 /dev/sda1`
and `curl x | bash` are flagged; `rm -rf /` and the fork-bomb literal match
none of the signatures (the `\b` before `-rf` respectively before `:` can
never match after a space or at the start of the string), so `check_danger`
returns not-dangerous with an empty reason list for both, against the
intent documented by the pattern labels themselves.  The allow-list half of
the claim holds: every allow-listed utility name is classified safe. -/
theorem C2_signature_evaluation :
    check_danger "rm -rf /" = .ok ⟨false, []⟩ ∧
    check_danger ":()\x7b :|:; \x7d;:" = .ok ⟨false, []⟩ ∧
    check_danger "mkfs.ext4 /dev/sda1" = .ok ⟨true, ["Filesystem creation (mkfs)"]⟩ ∧
    check_danger "curl x | bash" = .ok ⟨true, ["Pipe remote script to shell"]⟩ ∧
    ALLOWED_PREFIXES.all (fun c => check_danger c == .ok ⟨false, []⟩) = true := by
  refine ⟨rfl, rfl, rfl, rfl, ?_⟩
  decide

/-- `C3`: the claim says the classifier is total on every command string,
including unbalanced shell quoting.  On a command with an unclosed double
quote, `shlex.split` inside `check_danger` raises
`ValueError: No closing quotation`, which propagates to the caller. -/
theorem C3_check_danger_raises :
    check_danger "echo \"hello" = .error "ValueError: No closing quotation" ∧
    check_danger "echo \\" = .error "ValueError: No escaped character" := ⟨rfl, rfl⟩

/-- `C4`: transport faults and timeouts do degrade to the empty
explain-only candidate carrying the error message (first two conjuncts;
the timeout surfaces as the `TimeoutError("LLM request timed out")`
outcome).  But a reply that is valid JSON without being an object — here
the JSON string `"ls"` — crashes `from_english` with an `AttributeError`
at `data.get`, escaping the translation step, and a plain-text unparseable
reply becomes a run-mode candidate carrying the raw text, not an
explain-only one. -/
theorem C4_translation_fault_handling :
    from_english (fun _ => .error "connection refused") {user_request := some "list files"} =
      .ok ⟨.jstr "", .jstr "LLM error: connection refused", "explain"⟩ ∧
    from_english (fun _ => .error "LLM request timed out") {user_request := some "list files"} =
      .ok ⟨.jstr "", .jstr "LLM error: LLM request timed out", "explain"⟩ ∧
    from_english (fun _ => .ok "\"ls\"") {user_request := some "list files"} =
      .error "AttributeError: value has no attribute get" ∧
    from_english (fun _ => .ok "use the ls command") {user_request := some "list files"} =
      .ok ⟨.jstr "use the ls command",
        .jstr "Model returned plain text; review carefully.", "run"⟩ :=
  ⟨rfl, rfl, rfl, rfl⟩

/-- `C5`: with only the direct-command field populated, the graph reaches
the `run` node in two steps, having executed exactly `router` and
`from_direct` — never a translation node, `danger_check` or
`approval_gate` — and the run is the same under every environment, so no
collaborator (LLM transport, approval prompt) is consulted on the way. -/
theorem C5_direct_bypass (env : GraphEnv) (s : State)
    (h1 : pyTruthyOS s.direct_command = true)
    (h2 : pyTruthyOS s.user_request = false)
    (h3 : ¬ (pyTruthyOS s.last_command = true ∧ pyTruthyOS s.last_error = true)) :
    runSteps env 2 .router s = .ok ([.router, .from_direct], .run, from_direct s) ∧
    ∀ env' : GraphEnv,
      runSteps env' 2 .router s = .ok ([.router, .from_direct], .run, from_direct s) := by
  have hroute : route s = .ok "from_direct" := by
    unfold route
    simp [h1, h2, h3]
  have hall : ∀ e : GraphEnv,
      runSteps e 2 .router s = .ok ([.router, .from_direct], .run, from_direct s) := by
    intro e
    have s1 : step e .router s = .ok (.from_direct, s) := by
      show (route s >>= fun name =>
        pure (if name = "from_english" then GNode.from_english
          else if name = "from_error" then GNode.from_error else GNode.from_direct, s)) = _
      rw [hroute]
      rfl
    unfold runSteps
    rw [if_neg (by decide : ¬ ((GNode.router) = GNode.END)), s1]
    rfl
  exact ⟨hall env, hall⟩

/-- `C5` at a concrete input: a direct `ls -la` request reaches `run`
after exactly `router` and `from_direct`. -/
theorem C5_direct_bypass_witness :
    runSteps env0 2 .router {direct_command := some "ls -la"} =
      .ok ([.router, .from_direct], .run, from_direct {direct_command := some "ls -la"}) :=
  (C5_direct_bypass env0 {direct_command := some "ls -la"}
    (by decide) (by decide) (by decide)).1

lemma mem_dropWhile_of_mem {p : Char → Bool} {a : Char}
    (hpa : p a = false) : ∀ {l : List Char}, a ∈ l → a ∈ l.dropWhile p := by
  intro l h
  induction l with
  | nil => cases h
  | cons b t ih =>
    rw [List.dropWhile_cons]
    cases hb : p b with
    | false => simpa [hb] using h
    | true =>
      simp only [hb, if_pos]
      rcases List.mem_cons.mp h with rfl | ht
      · rw [hb] at hpa; cases hpa
      · exact ih ht

lemma mem_pyStrip {a : Char} {s : String} (h : a ∈ s.data)
    (hns : pyIsSpace a = false) : a ∈ (pyStrip s).data := by
  show a ∈ ((s.data.dropWhile pyIsSpace).reverse.dropWhile pyIsSpace).reverse
  rw [List.mem_reverse]
  exact mem_dropWhile_of_mem hns (List.mem_reverse.mpr (mem_dropWhile_of_mem hns h))

lemma listContains_singleton {ch : Char} :
    ∀ {l : List Char}, listContains l [ch] = true ↔ ch ∈ l := by
  intro l
  induction l with
  | nil => simp [listContains, List.isPrefixOf]
  | cons b t ih =>
    rw [listContains, Bool.or_eq_true, ih]
    simp only [List.isPrefixOf, List.mem_cons, Bool.and_eq_true, beq_iff_eq]
    constructor
    · rintro (⟨h1, _⟩ | h2)
      · exact Or.inl h1
      · exact Or.inr h2
    · rintro (h1 | h2)
      · exact Or.inl ⟨h1, trivial⟩
      · exact Or.inr h2

/-- The clarifying explanation installed by the placeholder guard is
always truthy (non-empty). -/
lemma jTruthy_pyOrJ_placeholder (x : Option Json) :
    jTruthy (pyOrJ x
      (.jstr "The proposed command includes placeholders (e.g., <...>). Replace them with real values and run again.")) = true := by
  cases x with
  | none => rfl
  | some v =>
    show jTruthy (if jTruthy v = true then v
      else Json.jstr "The proposed command includes placeholders (e.g., <...>). Replace them with real values and run again.") = true
    cases hjv : jTruthy v with
    | false => rfl
    | true => show jTruthy v = true; exact hjv

/-- The state update `approval_gate` makes on a placeholder-laden run-mode
candidate from a non-direct source, for any prompt answers. -/
lemma approval_gate_placeholder (a b : String) (s : State) (c : String)
    (hsrc : s.source ≠ some "direct") (hmode : s.candidate_mode = some "run")
    (hcmd : s.candidate_command = some (.jstr c))
    (hlt : strContains c "<" = true) (hgt : strContains c ">" = true) :
    approval_gate a b s = .ok {s with
      approval := some "cancelled"
      candidate_mode := some "explain"
      candidate_explanation := some (pyOrJ s.candidate_explanation
        (.jstr "The proposed command includes placeholders (e.g., <...>). Replace them with real values and run again."))} := by
  have hlt' : '<' ∈ c.data := listContains_singleton.mp hlt
  have hgt' : '>' ∈ c.data := listContains_singleton.mp hgt
  have hne : c ≠ "" := by
    intro he; subst he; simp at hlt'
  have hltS : '<' ∈ (pyStrip c).data := mem_pyStrip hlt' rfl
  have hgtS : '>' ∈ (pyStrip c).data := mem_pyStrip hgt' rfl
  have hSne : pyStrip c ≠ "" := by
    intro he; rw [he] at hltS; simp at hltS
  have hltB : strContains (pyStrip c) "<" = true := listContains_singleton.mpr hltS
  have hgtB : strContains (pyStrip c) ">" = true := listContains_singleton.mpr hgtS
  unfold approval_gate
  rw [if_neg hsrc, if_neg (by rw [hmode]; decide), hcmd]
  have e1 : pyOrEmptyStrip (some (.jstr c)) = Except.ok (pyStrip c) := by
    simp [pyOrEmptyStrip, jTruthy, jStr, Except.map, hne]
  rw [e1, ebind_ok]
  rw [if_pos (⟨hSne, hltB, hgtB⟩ :
    pyStrip c ≠ "" ∧ strContains (pyStrip c) "<" = true ∧ strContains (pyStrip c) ">" = true)]
  rfl

/-- `C6`: a non-direct candidate in run mode whose command text contains
both angle brackets is cancelled by the approval gate, forced to
explain mode with a non-empty explanation, and the graph moves to `END`
(never to `run`), for every environment. -/
theorem C6_placeholder_guard (s : State) (c : String)
    (hsrc : s.source ≠ some "direct") (hmode : s.candidate_mode = some "run")
    (hcmd : s.candidate_command = some (.jstr c))
    (hlt : strContains c "<" = true) (hgt : strContains c ">" = true) :
    ∃ s', (∀ env' : GraphEnv, step env' .approval_gate s = .ok (.END, s')) ∧
      s'.approval = some "cancelled" ∧
      s'.candidate_mode = some "explain" ∧
      jTruthy (s'.candidate_explanation.getD .jnull) = true := by
  refine ⟨{s with
    approval := some "cancelled"
    candidate_mode := some "explain"
    candidate_explanation := some (pyOrJ s.candidate_explanation
      (.jstr "The proposed command includes placeholders (e.g., <...>). Replace them with real values and run again."))},
    ?_, rfl, rfl, ?_⟩
  · intro env'
    show Except.map _ (approval_gate env'.approvalAns env'.approvalFeedback s) = _
    rw [approval_gate_placeholder env'.approvalAns env'.approvalFeedback s c
      hsrc hmode hcmd hlt hgt]
    rfl
  · exact jTruthy_pyOrJ_placeholder s.candidate_explanation

/-- `C6` at a concrete input: the candidate `ls <dir>` is cancelled and
explained, with `END` (not `run`) as the next node. -/
theorem C6_placeholder_guard_witness :
    ∃ s', (∀ env' : GraphEnv, step env' .approval_gate
        {candidate_command := some (.jstr "ls <dir>"), candidate_mode := some "run"} =
        .ok (.END, s')) ∧
      s'.approval = some "cancelled" ∧
      s'.candidate_mode = some "explain" ∧
      jTruthy (s'.candidate_explanation.getD .jnull) = true :=
  C6_placeholder_guard _ "ls <dir>" (by decide) rfl rfl (by decide) (by decide)

/-- `_handle_replan` touches only the pending-command marker: the output
buffer, the captured error text and the capacity are untouched. -/
lemma terminal_handle_replan_frame (o : TOracle) (t : Term) (b f : String) :
    (terminal_handle_replan o t b f).last_error_text = t.last_error_text ∧
    (terminal_handle_replan o t b f).last_output_lines = t.last_output_lines ∧
    (terminal_handle_replan o t b f).max_context_lines = t.max_context_lines := by
  refine ⟨?_, ?_, ?_⟩ <;>
  · unfold terminal_handle_replan
    dsimp only
    repeat first
      | rfl
      | split

/-- `_try_auto_repair` never modifies the output buffer, the captured
error text or the capacity. -/
lemma tryAutoRepairNoFix_frame (o : TOracle) (t1 : Term) (fc : String) :
    (tryAutoRepairNoFix o t1 fc).last_error_text = t1.last_error_text ∧
    (tryAutoRepairNoFix o t1 fc).last_output_lines = t1.last_output_lines ∧
    (tryAutoRepairNoFix o t1 fc).max_context_lines = t1.max_context_lines := by
  refine ⟨?_, ?_, ?_⟩ <;>
  · unfold tryAutoRepairNoFix
    split
    · first
        | exact (terminal_handle_replan_frame _ _ _ _).1
        | exact (terminal_handle_replan_frame _ _ _ _).2.1
        | exact (terminal_handle_replan_frame _ _ _ _).2.2
    · rfl

lemma tryAutoRepairWithFix_frame (o : TOracle) (t1 : Term) (fc r : String) (ir : Bool) :
    (tryAutoRepairWithFix o t1 fc r ir).last_error_text = t1.last_error_text ∧
    (tryAutoRepairWithFix o t1 fc r ir).last_output_lines = t1.last_output_lines ∧
    (tryAutoRepairWithFix o t1 fc r ir).max_context_lines = t1.max_context_lines := by
  refine ⟨?_, ?_, ?_⟩ <;>
  · unfold tryAutoRepairWithFix
    dsimp only
    repeat first
      | rfl
      | exact (terminal_handle_replan_frame _ _ _ _).1
      | exact (terminal_handle_replan_frame _ _ _ _).2.1
      | exact (terminal_handle_replan_frame _ _ _ _).2.2
      | split

lemma try_auto_repair_frame (o : TOracle) (t : Term) :
    (_try_auto_repair o t).last_error_text = t.last_error_text ∧
    (_try_auto_repair o t).last_output_lines = t.last_output_lines ∧
    (_try_auto_repair o t).max_context_lines = t.max_context_lines := by
  refine ⟨?_, ?_, ?_⟩ <;>
  · unfold _try_auto_repair
    dsimp only
    repeat first
      | rfl
      | exact (tryAutoRepairNoFix_frame _ _ _).1
      | exact (tryAutoRepairNoFix_frame _ _ _).2.1
      | exact (tryAutoRepairNoFix_frame _ _ _).2.2
      | exact (tryAutoRepairWithFix_frame _ _ _ _ _).1
      | exact (tryAutoRepairWithFix_frame _ _ _ _ _).2.1
      | exact (tryAutoRepairWithFix_frame _ _ _ _ _).2.2
      | split

/-- Each loop iteration appends exactly its line to the buffer and keeps
the capacity. -/
lemma processLine_buffer (o : TOracle) (t : Term) (line : String) :
    (processLine o t line).last_output_lines = t.last_output_lines ++ [line] ∧
    (processLine o t line).max_context_lines = t.max_context_lines := by
  refine ⟨?_, ?_⟩
  · unfold processLine
    dsimp only
    repeat first
      | rfl
      | exact (try_auto_repair_frame _ _).2.1
      | split
  · unfold processLine
    dsimp only
    repeat first
      | rfl
      | exact (try_auto_repair_frame _ _).2.2
      | split

lemma foldl_processLine_buffer (o : TOracle) (lines : List String) :
    ∀ t : Term, (lines.foldl (processLine o) t).last_output_lines =
        t.last_output_lines ++ lines ∧
      (lines.foldl (processLine o) t).max_context_lines = t.max_context_lines := by
  induction lines with
  | nil => intro t; exact ⟨(List.append_nil _).symm, rfl⟩
  | cons l ls ih =>
    intro t
    rw [List.foldl_cons]
    refine ⟨?_, ?_⟩
    · rw [(ih (processLine o t l)).1, (processLine_buffer o t l).1,
        List.append_assoc, List.singleton_append]
    · rw [(ih (processLine o t l)).2, (processLine_buffer o t l).2]

/-- `C7`: when the status sentinel with a non-zero code is observed while a
command is pending with recorded offset `O`, the captured error text is
exactly the join of the buffered lines `[O, N-1)` at sentinel time (`N`
counts the just-buffered sentinel line, which is excluded). -/
theorem C7_sentinel_slicing (o : TOracle) (t : Term) (c : String) (line : String) (k : Int)
    (hp : t.pending_cmd = some c)
    (hpre : pyStartsWith line "[[AI:STATUS:" = true)
    (hsuf : pyEndsWith line "]]" = true)
    (hcode : pyInt (statusLineCode line) = some k)
    (hk : k ≠ 0)
    (hncf : strContains (pyLower line) "command not found" = false) :
    (append_output_context o t [line]).last_error_text =
      some (joinNL (((t.last_output_lines ++ [line]).take
        ((t.last_output_lines ++ [line]).length - 1)).drop (max 0 t.pending_output_start))) := by
  have hpl : (processLine o t line).last_error_text =
      some (joinNL (((t.last_output_lines ++ [line]).take
        ((t.last_output_lines ++ [line]).length - 1)).drop (max 0 t.pending_output_start))) := by
    unfold processLine
    dsimp only
    rw [if_neg (by rw [hncf]; simp)]
    rw [if_pos (⟨hpre, hsuf⟩ :
      pyStartsWith line "[[AI:STATUS:" = true ∧ pyEndsWith line "]]" = true)]
    rw [hp, hcode]
    rw [if_pos (by rfl : (some c).isSome = true)]
    rw [if_pos (by simpa using hk)]
    exact (try_auto_repair_frame o _).1
  unfold append_output_context
  rw [List.foldl_cons, List.foldl_nil]
  dsimp only
  split
  · exact hpl
  · exact hpl

/-- `C7` at a concrete input: buffer `[a, b, c]`, offset 1, pending command,
sentinel `[[AI:STATUS:2]]` — the captured error text is `b\nc`. -/
theorem C7_sentinel_slicing_witness :
    (append_output_context oracle0
      {last_output_lines := ["a", "b", "c"], pending_cmd := some "cmd",
       pending_output_start := 1}
      ["[[AI:STATUS:2]]"]).last_error_text = some "b\nc" :=
  (C7_sentinel_slicing oracle0
    {last_output_lines := ["a", "b", "c"], pending_cmd := some "cmd",
     pending_output_start := 1}
    "cmd" "[[AI:STATUS:2]]" 2 rfl rfl rfl rfl (by decide) rfl).trans rfl

/-- `C8`: after any append the ring buffer holds at most
`max_context_lines` lines (the `AITerminal` constructor fixes the capacity
at 100), and the surviving lines are a suffix of the untrimmed buffer —
eviction removes the oldest lines first. -/
theorem C8_ring_buffer (o : TOracle) (t : Term) (lines : List String)
    (hmax : 0 < t.max_context_lines) :
    (append_output_context o t lines).last_output_lines.length ≤ t.max_context_lines ∧
    (append_output_context o t lines).last_output_lines.IsSuffix
      (t.last_output_lines ++ lines) ∧
    (AITerminal_init false false).max_context_lines = 100 := by
  have hbuf := (foldl_processLine_buffer o lines t).1
  have hmaxeq := (foldl_processLine_buffer o lines t).2
  unfold append_output_context
  dsimp only
  split
  case isTrue h =>
    rw [hmaxeq] at h ⊢
    refine ⟨?_, ?_, rfl⟩
    · show (pyLastN (lines.foldl (processLine o) t).last_output_lines
        t.max_context_lines).length ≤ t.max_context_lines
      unfold pyLastN
      rw [if_neg (Nat.pos_iff_ne_zero.mp hmax)]
      rw [List.length_drop]
      omega
    · show (pyLastN (lines.foldl (processLine o) t).last_output_lines
        t.max_context_lines).IsSuffix (t.last_output_lines ++ lines)
      unfold pyLastN
      rw [if_neg (Nat.pos_iff_ne_zero.mp hmax)]
      rw [← hbuf]
      exact List.drop_suffix _ _
  case isFalse h =>
    rw [hmaxeq] at h
    refine ⟨?_, ?_, rfl⟩
    · rw [hbuf] at h ⊢
      omega
    · rw [hbuf]

/-- `C8` at a concrete input: appending five lines to a capacity-3 buffer
keeps the newest three lines, a suffix of the full stream. -/
theorem C8_ring_buffer_witness :
    (append_output_context oracle0 {max_context_lines := 3}
      ["1", "2", "3", "4", "5"]).last_output_lines.length ≤ 3 ∧
    (append_output_context oracle0 {max_context_lines := 3}
      ["1", "2", "3", "4", "5"]).last_output_lines.IsSuffix
      (([] : List String) ++ ["1", "2", "3", "4", "5"]) ∧
    (AITerminal_init false false).max_context_lines = 100 :=
  C8_ring_buffer oracle0 {max_context_lines := 3} ["1", "2", "3", "4", "5"]
    (by decide)

/-- `C9`: a zero exit code is answered `ok` without consulting the LLM at
all; a non-zero exit code invokes `from_error` on the (command, stderr)
pair, and — whenever that translation completes with a candidate — the
response is `no_fix` with the explanation when the (stripped) suggestion
is empty, and otherwise `suggest_fix` carrying the suggestion, its
explanation and the danger verdict `danger_check` computes for it. -/
theorem C9_postexec (llm : String → Except String String) (p : PostexecPayload) :
    (postexecExitCode p = 0 →
      ∀ llm' : String → Except String String, _handle_postexec llm' p = .ok .okResp) ∧
    (postexecExitCode p ≠ 0 →
      ∀ (out : TransUpd) (sugg : String),
        from_error llm
          {last_command := some (pyOrS p.cmd "")
           last_error := some (pyOrS p.stderr_tail "")} = .ok out →
        pyOrEmptyStrip (some out.candidate_command) = .ok sugg →
        (sugg = "" → _handle_postexec llm p =
          .ok (.no_fix (pyOrJ (some out.candidate_explanation) (.jstr "")))) ∧
        (sugg ≠ "" → ∀ d : Bool × List String,
          dangerCheckCore {candidate_command := some (.jstr sugg)} = .ok d →
          _handle_postexec llm p =
            .ok (.suggest_fix sugg (pyOrJ (some out.candidate_explanation) (.jstr ""))
              d.1 d.2))) := by
  constructor
  · intro h0 llm'
    unfold _handle_postexec
    dsimp only
    rw [if_pos h0]
    rfl
  · intro hne out sugg hfe hs
    constructor
    · intro hempty
      unfold _handle_postexec
      dsimp only
      rw [if_neg hne, hfe, ebind_ok, hs, ebind_ok, if_pos hempty]
      rfl
    · intro hnonempty d hd
      unfold _handle_postexec
      dsimp only
      rw [if_neg hne, hfe, ebind_ok, hs, ebind_ok, if_neg hnonempty, hd, ebind_ok]
      rfl

/-- `C9` at a concrete input: exit code 2 with an LLM reply suggesting
`ls -a` yields `suggest_fix` with a not-dangerous verdict. -/
theorem C9_postexec_witness :
    _handle_postexec llmC9
      {cmd := some "lsf"
       exit_code := some 2
       stderr_tail := some "boom"} =
      .ok (.suggest_fix "ls -a" (.jstr "use -a") false []) :=
  ((C9_postexec llmC9 _).2 (by decide) ⟨.jstr "ls -a", .jstr "use -a", "run"⟩ "ls -a"
    rfl rfl).2 (by decide) (false, []) rfl

/-- `C10`: a preexec request whose `cmd` is empty or whitespace-only is
not a `/e ` translation request; it is answered `proceed` with
`require_confirmation = true` and the reason list `["No command
generated"]`, independently of the LLM collaborator. -/
theorem C10_preexec_empty (defaultCwd : String) (p : PreexecPayload)
    (h : pyStrip (pyOrS p.cmd "") = "") :
    ∀ llm' : String → Except String String,
      _handle_preexec llm' defaultCwd p =
        .ok (.proceed "" true ["No command generated"] (pyOrS p.cwd defaultCwd)) := by
  intro llm'
  unfold _handle_preexec
  dsimp only
  rw [h]
  rw [if_neg (by decide : ¬ (pyStartsWith "" "/e " = true))]
  rfl

/-- `C10` at a concrete input: a three-space `cmd` is reported as
requiring confirmation with reason `No command generated`. -/
theorem C10_preexec_empty_witness :
    _handle_preexec (fun _ => .error "provider unavailable") "/root" {cmd := some "   "} =
      .ok (.proceed "" true ["No command generated"] "/root") :=
  C10_preexec_empty "/root" {cmd := some "   "} (by decide)
    (fun _ => .error "provider unavailable")

end BashBard
